import Mathlib

/-!
Verification of the `SmartDevice` class from `SoloLinkedList.cpp`.

The C++ class is shallowly embedded: the object is a Lean structure, each
member function becomes a pure function returning the updated structure
together with the list of output lines it produced, and the wall clock is
abstracted by passing the timestamp string as an argument.  The C++ `int`
field `batteryLevel` is modelled by `Int` (no overflow is reachable in the
claims considered) and the `float` field `temperature` by `Rat`, which is
exact for the additive updates the code performs.  An output line is tagged
by the stream it goes to: the log file (`sink`), `stdout` (`console`) or
`stderr` (`err`); the fact that the `ofstream` is open is the Boolean field
`logOpen`, and whether `open` succeeds at construction is the Boolean
parameter `openOk` of the constructor models.
-/

namespace SoloSmart

/-- The three output streams the program writes to. -/
inductive Channel where
  | sink
  | console
  | err
  deriving DecidableEq

/-- One output line, tagged with the stream it is written to. -/
abbrev Output := Channel × String

/-- State of a `SmartDevice` object: the six data members of the C++ struct
plus the open/closed state of the `ofstream logFile`. -/
structure SmartDevice where
  deviceName : String
  deviceType : String
  isPoweredOn : Bool
  batteryLevel : Int
  temperature : Rat
  location : String
  logOpen : Bool
  deriving DecidableEq

/-- The line format used by `SmartDevice::log`:
`"[" << timestamp << "] " << deviceName << ": " << message`. -/
def mkLine (ts name msg : String) : String :=
  "[" ++ ts ++ "] " ++ name ++ ": " ++ msg

/-- Member function `SmartDevice::log`: writes the formatted line to the log file when it is
open, then writes the same line to `cout`, unconditionally. -/
def SmartDevice.log (d : SmartDevice) (ts msg : String) : List Output :=
  (if d.logOpen then [(Channel.sink, mkLine ts d.deviceName msg)] else []) ++
  [(Channel.console, mkLine ts d.deviceName msg)]

/-- Member function `SmartDevice::initLogger`: opens the file; on failure writes
`"Failed to open log file: " << filename` to `cerr`.  The success of
`open` is the parameter `openOk`. -/
def initLoggerOut (openOk : Bool) (filename : String) : List Output :=
  if openOk then [] else [(Channel.err, "Failed to open log file: " ++ filename)]

/-- The default constructor `SmartDevice()`: member initializers, then
`initLogger("device_log.txt")`, then the creation log entry. -/
def SmartDevice.mkDefault (openOk : Bool) (ts : String) : SmartDevice × List Output :=
  let d : SmartDevice :=
    { deviceName := "Unknown", deviceType := "Generic", isPoweredOn := false,
      batteryLevel := 100, temperature := 20, location := "Not set",
      logOpen := openOk }
  (d, initLoggerOut openOk "device_log.txt" ++
      d.log ts "Device created with default parameters")

/-- Constructor `SmartDevice(name)`: delegates to the default constructor, then assigns
`deviceName` and logs. -/
def SmartDevice.mkName (name : String) (openOk : Bool) (ts : String) :
    SmartDevice × List Output :=
  let r := SmartDevice.mkDefault openOk ts
  let d := { r.1 with deviceName := name }
  (d, r.2 ++ d.log ts ("Device name set to: " ++ name))

/-- Constructor `SmartDevice(name, type)`: delegates to `SmartDevice(name)`, then assigns
`deviceType` and logs. -/
def SmartDevice.mkNameType (name type : String) (openOk : Bool) (ts : String) :
    SmartDevice × List Output :=
  let r := SmartDevice.mkName name openOk ts
  let d := { r.1 with deviceType := type }
  (d, r.2 ++ d.log ts ("Device type set to: " ++ type))

/-- Constructor `SmartDevice(name, type, loc)`: delegates to `SmartDevice(name, type)`,
then assigns `location` and logs. -/
def SmartDevice.mkNameTypeLoc (name type loc : String) (openOk : Bool) (ts : String) :
    SmartDevice × List Output :=
  let r := SmartDevice.mkNameType name type openOk ts
  let d := { r.1 with location := loc }
  (d, r.2 ++ d.log ts ("Device location set to: " ++ loc))

/-- The fully-specified constructor
`SmartDevice(name, type, powered, battery, temp, loc)`: all six members are
initialized directly from the arguments (the battery argument is stored
as given), then `initLogger` runs and the creation entry is logged. -/
def SmartDevice.mkFull (name type : String) (powered : Bool) (battery : Int)
    (temp : Rat) (loc : String) (openOk : Bool) (ts : String) :
    SmartDevice × List Output :=
  let d : SmartDevice :=
    { deviceName := name, deviceType := type, isPoweredOn := powered,
      batteryLevel := battery, temperature := temp, location := loc,
      logOpen := openOk }
  (d, initLoggerOut openOk "device_log.txt" ++
      d.log ts "Device fully initialized with custom parameters")

/-- Member function `SmartDevice::setDeviceName`: assigns, then logs (so the log line already
carries the new name). -/
def SmartDevice.setDeviceName (d : SmartDevice) (ts name : String) :
    SmartDevice × List Output :=
  let d := { d with deviceName := name }
  (d, d.log ts ("Device name changed to: " ++ name))

/-- Member function `SmartDevice::setDeviceType`. -/
def SmartDevice.setDeviceType (d : SmartDevice) (ts type : String) :
    SmartDevice × List Output :=
  let d := { d with deviceType := type }
  (d, d.log ts ("Device type changed to: " ++ type))

/-- Member function `SmartDevice::setPoweredOn`. -/
def SmartDevice.setPoweredOn (d : SmartDevice) (ts : String) (powered : Bool) :
    SmartDevice × List Output :=
  let d := { d with isPoweredOn := powered }
  (d, d.log ts ("Device power state changed to: " ++ (if powered then "ON" else "OFF")))

/-- Member function `SmartDevice::setBatteryLevel`: clamps the argument to `[0, 100]` by two
successive `if`s, stores it and logs the clamped value. -/
def SmartDevice.setBatteryLevel (d : SmartDevice) (ts : String) (level : Int) :
    SmartDevice × List Output :=
  let level := if level < 0 then 0 else level
  let level := if level > 100 then 100 else level
  let d := { d with batteryLevel := level }
  (d, d.log ts ("Battery level set to: " ++ toString level ++ "%"))

/-- Member function `SmartDevice::setTemperature`: unconditional assignment, no clamping. -/
def SmartDevice.setTemperature (d : SmartDevice) (ts : String) (temp : Rat) :
    SmartDevice × List Output :=
  let d := { d with temperature := temp }
  (d, d.log ts ("Temperature set to: " ++ toString temp ++ "°C"))

/-- Member function `SmartDevice::setLocation`. -/
def SmartDevice.setLocation (d : SmartDevice) (ts loc : String) :
    SmartDevice × List Output :=
  let d := { d with location := loc }
  (d, d.log ts ("Location changed to: " ++ loc))

/-- Getter `SmartDevice::getDeviceName`. -/
def SmartDevice.getDeviceName (d : SmartDevice) : String := d.deviceName

/-- Getter `SmartDevice::getDeviceType`. -/
def SmartDevice.getDeviceType (d : SmartDevice) : String := d.deviceType

/-- Getter `SmartDevice::getIsPoweredOn`. -/
def SmartDevice.getIsPoweredOn (d : SmartDevice) : Bool := d.isPoweredOn

/-- Getter `SmartDevice::getBatteryLevel`. -/
def SmartDevice.getBatteryLevel (d : SmartDevice) : Int := d.batteryLevel

/-- Getter `SmartDevice::getTemperature`. -/
def SmartDevice.getTemperature (d : SmartDevice) : Rat := d.temperature

/-- Getter `SmartDevice::getLocation`. -/
def SmartDevice.getLocation (d : SmartDevice) : String := d.location

/-- Member function `SmartDevice::powerToggle`: flips the power state, then logs the
resulting state. -/
def SmartDevice.powerToggle (d : SmartDevice) (ts : String) :
    SmartDevice × List Output :=
  let d := { d with isPoweredOn := !d.isPoweredOn }
  (d, d.log ts ("Device toggled to: " ++ (if d.isPoweredOn then "ON" else "OFF")))

/-- Member function `SmartDevice::chargeBattery`: if powered off, logs a reason and returns
`false`; otherwise adds `amount`, caps only at 100, stores, logs the actual
delta and the new level, and returns `true`.  Result: (new state, output,
return value). -/
def SmartDevice.chargeBattery (d : SmartDevice) (ts : String) (amount : Int) :
    SmartDevice × List Output × Bool :=
  if !d.isPoweredOn then
    (d, d.log ts "Cannot charge - device is powered off", false)
  else
    let newLevel := d.batteryLevel + amount
    let newLevel := if newLevel > 100 then 100 else newLevel
    let charged := newLevel - d.batteryLevel
    let d := { d with batteryLevel := newLevel }
    (d, d.log ts ("Battery charged by " ++ toString charged ++
        "%. New level: " ++ toString newLevel ++ "%"), true)

/-- Member function `SmartDevice::adjustTemperature`: if powered off, logs a reason and
returns; otherwise adds `delta` with no clamping and logs old and new. -/
def SmartDevice.adjustTemperature (d : SmartDevice) (ts : String) (delta : Rat) :
    SmartDevice × List Output :=
  if !d.isPoweredOn then
    (d, d.log ts "Cannot adjust temperature - device is powered off")
  else
    let oldTemp := d.temperature
    let d := { d with temperature := d.temperature + delta }
    (d, d.log ts ("Temperature adjusted from " ++ toString oldTemp ++
        "°C to " ++ toString d.temperature ++ "°C"))

/-- Predicate `SmartDevice::isLowBattery`. -/
def SmartDevice.isLowBattery (d : SmartDevice) : Bool :=
  decide (d.batteryLevel < 20)

/-- Member function `SmartDevice::performDiagnostics`: seven sequential `log` calls; the
fourth and sixth choose between a warning and an OK message.  No data member
is written, which the result records by returning the state unchanged. -/
def SmartDevice.performDiagnostics (d : SmartDevice) (ts : String) :
    SmartDevice × List Output :=
  (d,
    d.log ts "Starting diagnostics..." ++
    d.log ts ("Checking power: " ++ (if d.isPoweredOn then "OK" else "OFF")) ++
    d.log ts ("Checking battery level: " ++ toString d.batteryLevel ++ "%") ++
    (if d.isLowBattery then
      d.log ts "WARNING: Low battery detected!"
    else
      d.log ts "Battery level OK") ++
    d.log ts ("Checking temperature: " ++ toString d.temperature ++ "°C") ++
    (if d.temperature < 0 ∨ d.temperature > 40 then
      d.log ts "WARNING: Temperature outside normal operating range!"
    else
      d.log ts "Temperature OK") ++
    d.log ts "Diagnostics completed")

/-- Number of log entries in an output trace: each `log` call writes the
line to `cout` exactly once, so the console lines count the entries. -/
def consoleCount (out : List Output) : Nat :=
  out.countP (fun o => decide (o.1 = Channel.console))

end SoloSmart

namespace SoloSmart

/-! ## Helper definitions and lemmas -/

/-- The pair of lines one `log` call produces when the sink is open: the same
formatted line, written first to the sink and then to the console. -/
def sinkThenConsole (ts name msg : String) : List Output :=
  [(Channel.sink, mkLine ts name msg), (Channel.console, mkLine ts name msg)]

lemma log_of_open (d : SmartDevice) (ts msg : String) (h : d.logOpen = true) :
    d.log ts msg = sinkThenConsole ts d.deviceName msg := by
  simp [SmartDevice.log, sinkThenConsole, h]

lemma log_of_closed (d : SmartDevice) (ts msg : String) (h : d.logOpen = false) :
    d.log ts msg = [(Channel.console, mkLine ts d.deviceName msg)] := by
  simp [SmartDevice.log, h]

lemma str_append_cancel {p m1 m2 : String} (h : p ++ m1 = p ++ m2) : m1 = m2 := by
  have hd : (p ++ m1).data = (p ++ m2).data := by rw [h]
  rw [String.data_append, String.data_append] at hd
  exact String.ext (List.append_cancel_left hd)

lemma mkLine_inj {ts name m1 m2 : String} :
    mkLine ts name m1 = mkLine ts name m2 ↔ m1 = m2 := by
  constructor
  · intro h
    simp only [mkLine] at h
    exact str_append_cancel h
  · intro h
    rw [h]

lemma ne_of_head {a b : String} (h : a.data.head? ≠ b.data.head?) : a ≠ b :=
  fun e => h (by rw [e])

lemma head_of_append {p : String} (x : String) {c : Char}
    (hp : p.data.head? = some c) : (p ++ x).data.head? = some c := by
  rw [String.data_append]
  cases hd : p.data with
  | nil => rw [hd] at hp; simp at hp
  | cons a as =>
      rw [hd] at hp
      rw [List.cons_append]
      simpa using hp

lemma ne_append_of_head {w p : String} (x : String) (a b : Char)
    (hw : w.data.head? = some a) (hp : p.data.head? = some b)
    (hne : a ≠ b) : w ≠ p ++ x := by
  apply ne_of_head
  rw [hw, head_of_append x hp]
  simpa using hne

end SoloSmart

namespace SoloSmart

/-! ## Claim theorems -/

/-- C2, counterexample: constructing with `battery = 150` does not yield
`getBatteryLevel() == 100`; the fully-specified constructor stores the
value unclamped. -/
theorem c2_counterexample :
    ¬ (SmartDevice.mkFull "X" "Y" true 150 22.5 "Z" true "T").1.getBatteryLevel = 100 := by
  decide

/-- C2 (amended): constructing a Device with the fully-specified form
`(name="X", type="Y", powered=true, battery=150, temp=22.5, loc="Z")` yields
`getBatteryLevel() == 150` (the supplied battery value is stored unclamped)
and every other getter returns exactly the supplied value. -/
theorem c2_amended_roundtrip :
    (SmartDevice.mkFull "X" "Y" true 150 22.5 "Z" true "T").1.getBatteryLevel = 150 ∧
    (SmartDevice.mkFull "X" "Y" true 150 22.5 "Z" true "T").1.getDeviceName = "X" ∧
    (SmartDevice.mkFull "X" "Y" true 150 22.5 "Z" true "T").1.getDeviceType = "Y" ∧
    (SmartDevice.mkFull "X" "Y" true 150 22.5 "Z" true "T").1.getIsPoweredOn = true ∧
    (SmartDevice.mkFull "X" "Y" true 150 22.5 "Z" true "T").1.getTemperature = 22.5 ∧
    (SmartDevice.mkFull "X" "Y" true 150 22.5 "Z" true "T").1.getLocation = "Z" :=
  ⟨rfl, rfl, rfl, rfl, rfl, rfl⟩

/-- C3: on a powered-on device, for `amount ≥ 0` and old battery level in
`[0, 100]`, `chargeBattery` returns `true`, sets the battery level to
`min 100 (old + amount)`, and its log entry reports the actual delta applied
(`newLevel - old`, not the requested amount) together with the new level. -/
theorem c3_chargeBattery_powered (d : SmartDevice) (ts : String) (amount : Int)
    (hp : d.isPoweredOn = true) (ha : 0 ≤ amount)
    (h0 : 0 ≤ d.batteryLevel) (h1 : d.batteryLevel ≤ 100) :
    (d.chargeBattery ts amount).2.2 = true ∧
    (d.chargeBattery ts amount).1.batteryLevel = min 100 (d.batteryLevel + amount) ∧
    (d.chargeBattery ts amount).2.1 =
      (d.chargeBattery ts amount).1.log ts
        ("Battery charged by " ++
          toString (min 100 (d.batteryLevel + amount) - d.batteryLevel) ++
          "%. New level: " ++ toString (min 100 (d.batteryLevel + amount)) ++ "%") := by
  have hm : (if d.batteryLevel + amount > 100 then (100 : Int) else d.batteryLevel + amount) =
      min 100 (d.batteryLevel + amount) := by
    split <;> omega
  simp only [SmartDevice.chargeBattery, hp, Bool.not_true, Bool.false_eq_true,
    if_false, hm]
  exact ⟨trivial, trivial, trivial⟩

/-- C3, witness at a concrete device (battery 95, charge request 10, so that
the applied delta 5 differs from the requested amount). -/
theorem c3_chargeBattery_powered_witness :
    ((⟨"A", "B", true, 95, 20, "L", true⟩ : SmartDevice).chargeBattery "T" 10).2.2 = true ∧
    ((⟨"A", "B", true, 95, 20, "L", true⟩ : SmartDevice).chargeBattery "T" 10).1.batteryLevel =
      min 100 (95 + 10) ∧
    ((⟨"A", "B", true, 95, 20, "L", true⟩ : SmartDevice).chargeBattery "T" 10).2.1 =
      ((⟨"A", "B", true, 95, 20, "L", true⟩ : SmartDevice).chargeBattery "T" 10).1.log "T"
        ("Battery charged by " ++ toString (min 100 ((95 : Int) + 10) - 95) ++
          "%. New level: " ++ toString (min 100 ((95 : Int) + 10)) ++ "%") :=
  c3_chargeBattery_powered ⟨"A", "B", true, 95, 20, "L", true⟩ "T" 10 rfl
    (by decide) (by decide) (by decide)

/-- C4: on a powered-off device, `chargeBattery` returns `false`, emits one
log entry stating the reason, and leaves the whole device state unchanged. -/
theorem c4_chargeBattery_off (d : SmartDevice) (ts : String) (amount : Int)
    (hp : d.isPoweredOn = false) :
    d.chargeBattery ts amount =
      (d, d.log ts "Cannot charge - device is powered off", false) := by
  simp [SmartDevice.chargeBattery, hp]

/-- C4, witness at a concrete powered-off device. -/
theorem c4_chargeBattery_off_witness :
    (⟨"A", "B", false, 50, 20, "L", true⟩ : SmartDevice).chargeBattery "T" 30 =
      ((⟨"A", "B", false, 50, 20, "L", true⟩ : SmartDevice),
        (⟨"A", "B", false, 50, 20, "L", true⟩ : SmartDevice).log "T"
          "Cannot charge - device is powered off", false) :=
  c4_chargeBattery_off ⟨"A", "B", false, 50, 20, "L", true⟩ "T" 30 rfl

/-- C5: `adjustTemperature(delta)` leaves the device unchanged (logging a
reason) when powered off, and when powered on sets the temperature to
`old + delta` exactly, with no clamping, all other fields unchanged. -/
theorem c5_adjustTemperature (d : SmartDevice) (ts : String) (delta : Rat) :
    (d.isPoweredOn = false →
      d.adjustTemperature ts delta =
        (d, d.log ts "Cannot adjust temperature - device is powered off")) ∧
    (d.isPoweredOn = true →
      (d.adjustTemperature ts delta).1 =
        { d with temperature := d.temperature + delta }) := by
  constructor
  · intro h
    simp [SmartDevice.adjustTemperature, h]
  · intro h
    simp [SmartDevice.adjustTemperature, h]

/-- C5, witness: a powered-off device is unchanged; a powered-on device at
2 °C adjusted by −5 ends at `2 + (-5)` (a negative temperature, unclamped). -/
theorem c5_adjustTemperature_witness :
    ((⟨"A", "B", false, 100, 20, "L", true⟩ : SmartDevice).adjustTemperature "T" 5 =
      ((⟨"A", "B", false, 100, 20, "L", true⟩ : SmartDevice),
        (⟨"A", "B", false, 100, 20, "L", true⟩ : SmartDevice).log "T"
          "Cannot adjust temperature - device is powered off")) ∧
    ((⟨"A", "B", true, 100, 2, "L", true⟩ : SmartDevice).adjustTemperature "T" (-5)).1 =
      { (⟨"A", "B", true, 100, 2, "L", true⟩ : SmartDevice) with temperature := 2 + (-5) } :=
  ⟨(c5_adjustTemperature ⟨"A", "B", false, 100, 20, "L", true⟩ "T" 5).1 rfl,
   (c5_adjustTemperature ⟨"A", "B", true, 100, 2, "L", true⟩ "T" (-5)).2 rfl⟩

/-- C9: on a powered-on device, whenever `old + amount ≤ 100` the battery is
set to `old + amount` (only the upper bound 100 is enforced, so negative
amounts drive the level below 0) and `chargeBattery` still returns `true`. -/
theorem c9_chargeBattery_no_lower_bound (d : SmartDevice) (ts : String) (amount : Int)
    (hp : d.isPoweredOn = true) (hle : d.batteryLevel + amount ≤ 100) :
    (d.chargeBattery ts amount).1.batteryLevel = d.batteryLevel + amount ∧
    (d.chargeBattery ts amount).2.2 = true := by
  constructor
  · simp only [SmartDevice.chargeBattery, hp, Bool.not_true, Bool.false_eq_true, if_false]
    split <;> omega
  · simp [SmartDevice.chargeBattery, hp]

/-- C9, witness: battery 10, amount −30: the stored level is `10 + (-30)`,
which is below 0, and the call returns `true`. -/
theorem c9_chargeBattery_no_lower_bound_witness :
    ((⟨"A", "B", true, 10, 20, "L", true⟩ : SmartDevice).chargeBattery "T" (-30)).1.batteryLevel =
      10 + (-30) ∧
    ((⟨"A", "B", true, 10, 20, "L", true⟩ : SmartDevice).chargeBattery "T" (-30)).2.2 = true ∧
    ((10 : Int) + (-30) < 0) :=
  ⟨(c9_chargeBattery_no_lower_bound ⟨"A", "B", true, 10, 20, "L", true⟩ "T" (-30) rfl
      (by decide)).1,
   (c9_chargeBattery_no_lower_bound ⟨"A", "B", true, 10, 20, "L", true⟩ "T" (-30) rfl
      (by decide)).2,
   by decide⟩

end SoloSmart

namespace SoloSmart

/-- C1, counterexample: two mutation paths store battery values outside
`[0, 100]`: the fully-specified constructor stores a supplied value of 150
unclamped, and `chargeBattery` with a negative amount on a powered-on device
stores a level below 0. -/
theorem c1_counterexample :
    (SmartDevice.mkFull "A" "B" true 150 22.5 "L" true "T").1.batteryLevel = 150 ∧
    ¬ (SmartDevice.mkFull "A" "B" true 150 22.5 "L" true "T").1.batteryLevel ≤ 100 ∧
    ((⟨"A", "B", true, 10, 20, "L", true⟩ : SmartDevice).chargeBattery "T" (-30)).1.batteryLevel
      = -20 := by
  exact ⟨rfl, by decide, by decide⟩

/-- C1 (amended): `setBatteryLevel` clamps to `[0, 100]` before storing and
the default and delegating constructors store 100, but the fully-specified
constructor stores the supplied battery value unclamped and `chargeBattery`
clamps only at the upper bound 100, so battery values outside `[0, 100]`
are storable through those two paths. -/
theorem c1_battery_clamping (d : SmartDevice) (ts name type loc : String)
    (openOk powered : Bool) (level battery amount : Int) (temp : Rat) :
    (0 ≤ (d.setBatteryLevel ts level).1.batteryLevel ∧
      (d.setBatteryLevel ts level).1.batteryLevel ≤ 100) ∧
    (SmartDevice.mkDefault openOk ts).1.batteryLevel = 100 ∧
    (SmartDevice.mkName name openOk ts).1.batteryLevel = 100 ∧
    (SmartDevice.mkNameType name type openOk ts).1.batteryLevel = 100 ∧
    (SmartDevice.mkNameTypeLoc name type loc openOk ts).1.batteryLevel = 100 ∧
    (SmartDevice.mkFull name type powered battery temp loc openOk ts).1.batteryLevel = battery ∧
    (d.isPoweredOn = true →
      (d.chargeBattery ts amount).1.batteryLevel = min 100 (d.batteryLevel + amount)) := by
  refine ⟨?_, rfl, rfl, rfl, rfl, rfl, ?_⟩
  · simp only [SmartDevice.setBatteryLevel]
    split_ifs <;> omega
  · intro hp
    simp only [SmartDevice.chargeBattery, hp, Bool.not_true, Bool.false_eq_true, if_false]
    split <;> omega

/-- C1, witness: the `chargeBattery` clause applied to a powered-on device
with battery 10 charged by 50. -/
theorem c1_battery_clamping_witness :
    ((⟨"A", "B", true, 10, 20, "L", true⟩ : SmartDevice).chargeBattery "T" 50).1.batteryLevel =
      min 100 (10 + 50) :=
  (c1_battery_clamping ⟨"A", "B", true, 10, 20, "L", true⟩ "T" "N" "G" "L" true true
    0 0 50 20).2.2.2.2.2.2 rfl

/-- C10: for each delegating constructor the base creation entry is written
with device name `"Unknown"` in its line prefix (the delegated default
constructor logs before the supplied name is assigned), and only the later
per-field entries carry the supplied name. -/
theorem c10_delegating_base_entry (name type loc ts : String) :
    (SmartDevice.mkName name true ts).2 =
      [(Channel.sink, mkLine ts "Unknown" "Device created with default parameters"),
       (Channel.console, mkLine ts "Unknown" "Device created with default parameters"),
       (Channel.sink, mkLine ts name ("Device name set to: " ++ name)),
       (Channel.console, mkLine ts name ("Device name set to: " ++ name))] ∧
    (SmartDevice.mkNameType name type true ts).2 =
      [(Channel.sink, mkLine ts "Unknown" "Device created with default parameters"),
       (Channel.console, mkLine ts "Unknown" "Device created with default parameters"),
       (Channel.sink, mkLine ts name ("Device name set to: " ++ name)),
       (Channel.console, mkLine ts name ("Device name set to: " ++ name)),
       (Channel.sink, mkLine ts name ("Device type set to: " ++ type)),
       (Channel.console, mkLine ts name ("Device type set to: " ++ type))] ∧
    (SmartDevice.mkNameTypeLoc name type loc true ts).2 =
      [(Channel.sink, mkLine ts "Unknown" "Device created with default parameters"),
       (Channel.console, mkLine ts "Unknown" "Device created with default parameters"),
       (Channel.sink, mkLine ts name ("Device name set to: " ++ name)),
       (Channel.console, mkLine ts name ("Device name set to: " ++ name)),
       (Channel.sink, mkLine ts name ("Device type set to: " ++ type)),
       (Channel.console, mkLine ts name ("Device type set to: " ++ type)),
       (Channel.sink, mkLine ts name ("Device location set to: " ++ loc)),
       (Channel.console, mkLine ts name ("Device location set to: " ++ loc))] :=
  ⟨rfl, rfl, rfl⟩

/-- C8: when the log sink cannot be opened at construction, the constructor
still returns a device (all defaults, sink marked closed) after writing a
one-line failure notice naming the file to the error stream; every later
`log` call, and hence every later operation, writes its line to the console
only, never to the sink. -/
theorem c8_sink_open_failure (ts ts2 msg : String) (level : Int) :
    (SmartDevice.mkDefault false ts).2 =
      [(Channel.err, "Failed to open log file: device_log.txt"),
       (Channel.console, mkLine ts "Unknown" "Device created with default parameters")] ∧
    (SmartDevice.mkDefault false ts).1 =
      ⟨"Unknown", "Generic", false, 100, 20, "Not set", false⟩ ∧
    ((SmartDevice.mkDefault false ts).1.log ts2 msg =
      [(Channel.console, mkLine ts2 "Unknown" msg)]) ∧
    (((SmartDevice.mkDefault false ts).1.setBatteryLevel ts2 level).2.map Prod.fst =
      [Channel.console]) ∧
    (((SmartDevice.mkDefault false ts).1.powerToggle ts2).2.map Prod.fst =
      [Channel.console]) :=
  ⟨rfl, rfl, rfl, rfl, rfl⟩

end SoloSmart

namespace SoloSmart

/-- C7: with the sink open, every state-changing operation (the six setters,
`powerToggle`, and the state-changing branches of `chargeBattery` and
`adjustTemperature`) emits exactly one log entry describing the change,
written first to the sink and then to the console, each line in the format
`[<timestamp>] <device-name>: <message>`. -/
theorem c7_mutators_log_once (d : SmartDevice) (ts name type loc : String)
    (powered : Bool) (level amount : Int) (temp delta : Rat)
    (hlog : d.logOpen = true) :
    (d.setDeviceName ts name).2 =
      sinkThenConsole ts name ("Device name changed to: " ++ name) ∧
    (d.setDeviceType ts type).2 =
      sinkThenConsole ts d.deviceName ("Device type changed to: " ++ type) ∧
    (d.setLocation ts loc).2 =
      sinkThenConsole ts d.deviceName ("Location changed to: " ++ loc) ∧
    (d.setPoweredOn ts powered).2 =
      sinkThenConsole ts d.deviceName
        ("Device power state changed to: " ++ (if powered then "ON" else "OFF")) ∧
    (d.setBatteryLevel ts level).2 =
      sinkThenConsole ts d.deviceName
        ("Battery level set to: " ++ toString (min 100 (max 0 level)) ++ "%") ∧
    (d.setTemperature ts temp).2 =
      sinkThenConsole ts d.deviceName ("Temperature set to: " ++ toString temp ++ "°C") ∧
    (d.powerToggle ts).2 =
      sinkThenConsole ts d.deviceName
        ("Device toggled to: " ++ (if d.isPoweredOn then "OFF" else "ON")) ∧
    (d.isPoweredOn = true →
      (d.chargeBattery ts amount).2.1 =
        sinkThenConsole ts d.deviceName
          ("Battery charged by " ++
            toString (min 100 (d.batteryLevel + amount) - d.batteryLevel) ++
            "%. New level: " ++ toString (min 100 (d.batteryLevel + amount)) ++ "%")) ∧
    (d.isPoweredOn = true →
      (d.adjustTemperature ts delta).2 =
        sinkThenConsole ts d.deviceName
          ("Temperature adjusted from " ++ toString d.temperature ++ "°C to " ++
            toString (d.temperature + delta) ++ "°C")) := by
  have hminmax : (if (if level < 0 then (0 : Int) else level) > 100 then (100 : Int)
      else if level < 0 then 0 else level) = min 100 (max 0 level) := by
    split_ifs <;> omega
  have hmin : (if d.batteryLevel + amount > 100 then (100 : Int)
      else d.batteryLevel + amount) = min 100 (d.batteryLevel + amount) := by
    split <;> omega
  refine ⟨?_, ?_, ?_, ?_, ?_, ?_, ?_, ?_, ?_⟩
  · simp [SmartDevice.setDeviceName, SmartDevice.log, sinkThenConsole, hlog]
  · simp [SmartDevice.setDeviceType, SmartDevice.log, sinkThenConsole, hlog]
  · simp [SmartDevice.setLocation, SmartDevice.log, sinkThenConsole, hlog]
  · simp [SmartDevice.setPoweredOn, SmartDevice.log, sinkThenConsole, hlog]
  · simp only [SmartDevice.setBatteryLevel, hminmax]
    simp [SmartDevice.log, sinkThenConsole, hlog]
  · simp [SmartDevice.setTemperature, SmartDevice.log, sinkThenConsole, hlog]
  · cases hpow : d.isPoweredOn <;>
      simp [SmartDevice.powerToggle, SmartDevice.log, sinkThenConsole, hlog, hpow]
  · intro hp
    simp only [SmartDevice.chargeBattery, hp, Bool.not_true, Bool.false_eq_true,
      if_false, hmin]
    simp [SmartDevice.log, sinkThenConsole, hlog]
  · intro hp
    simp only [SmartDevice.adjustTemperature, hp, Bool.not_true, Bool.false_eq_true,
      if_false]
    simp [SmartDevice.log, sinkThenConsole, hlog]

/-- C7, witness: all nine clauses instantiated at a concrete powered-on
device with the sink open. -/
theorem c7_mutators_log_once_witness :
    ((⟨"N", "G", true, 50, 20, "L", true⟩ : SmartDevice).setDeviceName "T" "X").2 =
      sinkThenConsole "T" "X" ("Device name changed to: " ++ "X") ∧
    ((⟨"N", "G", true, 50, 20, "L", true⟩ : SmartDevice).setDeviceType "T" "Y").2 =
      sinkThenConsole "T" "N" ("Device type changed to: " ++ "Y") ∧
    ((⟨"N", "G", true, 50, 20, "L", true⟩ : SmartDevice).setLocation "T" "Z").2 =
      sinkThenConsole "T" "N" ("Location changed to: " ++ "Z") ∧
    ((⟨"N", "G", true, 50, 20, "L", true⟩ : SmartDevice).setPoweredOn "T" false).2 =
      sinkThenConsole "T" "N"
        ("Device power state changed to: " ++ (if false then "ON" else "OFF")) ∧
    ((⟨"N", "G", true, 50, 20, "L", true⟩ : SmartDevice).setBatteryLevel "T" 150).2 =
      sinkThenConsole "T" "N"
        ("Battery level set to: " ++ toString (min 100 (max 0 (150 : Int))) ++ "%") ∧
    ((⟨"N", "G", true, 50, 20, "L", true⟩ : SmartDevice).setTemperature "T" 25).2 =
      sinkThenConsole "T" "N" ("Temperature set to: " ++ toString (25 : Rat) ++ "°C") ∧
    ((⟨"N", "G", true, 50, 20, "L", true⟩ : SmartDevice).powerToggle "T").2 =
      sinkThenConsole "T" "N" ("Device toggled to: " ++ (if true then "OFF" else "ON")) ∧
    ((⟨"N", "G", true, 50, 20, "L", true⟩ : SmartDevice).chargeBattery "T" 30).2.1 =
      sinkThenConsole "T" "N"
        ("Battery charged by " ++ toString (min 100 ((50 : Int) + 30) - 50) ++
          "%. New level: " ++ toString (min 100 ((50 : Int) + 30)) ++ "%") ∧
    ((⟨"N", "G", true, 50, 20, "L", true⟩ : SmartDevice).adjustTemperature "T" (-3)).2 =
      sinkThenConsole "T" "N"
        ("Temperature adjusted from " ++ toString (20 : Rat) ++ "°C to " ++
          toString ((20 : Rat) + (-3)) ++ "°C") := by
  have h := c7_mutators_log_once ⟨"N", "G", true, 50, 20, "L", true⟩ "T" "X" "Y" "Z"
    false 150 30 25 (-3) rfl
  exact ⟨h.1, h.2.1, h.2.2.1, h.2.2.2.1, h.2.2.2.2.1, h.2.2.2.2.2.1, h.2.2.2.2.2.2.1,
    h.2.2.2.2.2.2.2.1 rfl, h.2.2.2.2.2.2.2.2 rfl⟩

end SoloSmart

namespace SoloSmart

lemma mem_log_console (d : SmartDevice) (ts msg L : String) :
    ((Channel.console, L) ∈ d.log ts msg) ↔ L = mkLine ts d.deviceName msg := by
  cases h : d.logOpen <;> simp [SmartDevice.log, h]

lemma consoleCount_append (o1 o2 : List Output) :
    consoleCount (o1 ++ o2) = consoleCount o1 + consoleCount o2 := by
  simp [consoleCount, List.countP_append]

lemma consoleCount_log (d : SmartDevice) (ts msg : String) :
    consoleCount (d.log ts msg) = 1 := by
  cases h : d.logOpen <;> simp [SmartDevice.log, h, consoleCount]

/-- C6, counterexample: on a powered-on device with battery 50 and
temperature 20 neither warning triggers, yet `performDiagnostics` emits 7
log entries, not the 5 the claimed count formula (5 base entries plus one
per triggered warning) gives. -/
theorem c6_counterexample :
    ¬ (consoleCount ((⟨"Main Hub", "Control Center", true, 50, 20, "Living Room",
          true⟩ : SmartDevice).performDiagnostics "T").2 =
        5 + (if (⟨"Main Hub", "Control Center", true, 50, 20, "Living Room",
          true⟩ : SmartDevice).isLowBattery then 1 else 0) +
        (if (⟨"Main Hub", "Control Center", true, 50, 20, "Living Room",
          true⟩ : SmartDevice).temperature < 0 ∨
          (⟨"Main Hub", "Control Center", true, 50, 20, "Living Room",
          true⟩ : SmartDevice).temperature > 40 then 1 else 0)) := by
  decide

/-- C6 (amended): every call to `performDiagnostics` emits exactly 7 log
entries (an OK entry replaces each untriggered warning): the low-battery
warning entry is included iff `isLowBattery()` holds, the temperature
warning entry is included iff the temperature is below 0 or above 40, and
no device state is mutated. -/
theorem c6_diagnostics (d : SmartDevice) (ts : String) :
    (d.performDiagnostics ts).1 = d ∧
    consoleCount (d.performDiagnostics ts).2 = 7 ∧
    ((Channel.console, mkLine ts d.deviceName "WARNING: Low battery detected!") ∈
        (d.performDiagnostics ts).2 ↔ d.isLowBattery = true) ∧
    ((Channel.console, mkLine ts d.deviceName
        "WARNING: Temperature outside normal operating range!") ∈
        (d.performDiagnostics ts).2 ↔ (d.temperature < 0 ∨ d.temperature > 40)) := by
  refine ⟨rfl, ?_, ?_, ?_⟩
  · simp only [SmartDevice.performDiagnostics]
    split <;> split <;> split <;>
      simp [consoleCount_append, consoleCount_log]
  · cases hlb : d.isLowBattery with
    | true =>
        simp only [SmartDevice.performDiagnostics, hlb, if_true]
        simp [List.mem_append, mem_log_console, mkLine_inj]
    | false =>
        simp only [SmartDevice.performDiagnostics, hlb, Bool.false_eq_true, if_false,
          iff_false]
        by_cases htw : d.temperature < 0 ∨ d.temperature > 40
        all_goals
          simp only [htw, if_true, if_false, List.mem_append, mem_log_console, mkLine_inj]
          intro hmem
          rcases hmem with ((((((h | h) | h) | h) | h) | h) | h)
          · exact absurd h (by decide)
          · exact (ne_append_of_head _ 'W' 'C' (by decide) (by decide) (by decide)) h
          · exact (ne_append_of_head "%" 'W' 'C' (by decide)
              (head_of_append (toString d.batteryLevel) (by decide)) (by decide)) h
          · exact absurd h (by decide)
          · exact (ne_append_of_head "°C" 'W' 'C' (by decide)
              (head_of_append (toString d.temperature) (by decide)) (by decide)) h
          · exact absurd h (by decide)
          · exact absurd h (by decide)
  · by_cases htw : d.temperature < 0 ∨ d.temperature > 40
    · simp only [SmartDevice.performDiagnostics, htw, if_true, iff_true_intro htw,
        iff_true]
      simp [List.mem_append, mem_log_console, mkLine_inj]
    · simp only [SmartDevice.performDiagnostics, htw, if_false, iff_false_intro htw,
        iff_false]
      cases hlb : d.isLowBattery
      all_goals
        simp only [hlb, Bool.false_eq_true, if_true, if_false, List.mem_append,
          mem_log_console, mkLine_inj]
        intro hmem
        rcases hmem with ((((((h | h) | h) | h) | h) | h) | h)
        · exact absurd h (by decide)
        · exact (ne_append_of_head _ 'W' 'C' (by decide) (by decide) (by decide)) h
        · exact (ne_append_of_head "%" 'W' 'C' (by decide)
            (head_of_append (toString d.batteryLevel) (by decide)) (by decide)) h
        · exact absurd h (by decide)
        · exact (ne_append_of_head "°C" 'W' 'C' (by decide)
            (head_of_append (toString d.temperature) (by decide)) (by decide)) h
        · exact absurd h (by decide)
        · exact absurd h (by decide)

end SoloSmart
